import Mathlib

/-!
Verification of the `google-https-dns` DNS-over-HTTPS proxy (`main.go`).

The `src/` directory of the repository holds only `main.go`; the `gdns`
package it imports
(Provider, Handler, `ParseEndpoint`) belongs to the same repository but is not
under `src/`, so those parts are modelled from the specification and are marked
`Modelled from the spec:` in their doc comments.  Everything else is a shallow
embedding of `main.go`: the CLI flag surface, the option construction in the
app action, and the listener/serve/shutdown control flow.
-/

namespace GHD

/-- The CLI flags recognised by `main.go` (lines 63-106), with their default
values.  String-slice flags become lists; boolean flags default to `false`. -/
structure Flags where
  listen : String := ":5300"
  proxy : String := ""
  endpoint : String := "https://dns.google.com/resolve"
  endpointIPs : List String := []
  dnsServers : List String := []
  edns : String := ""
  noPad : Bool := false
  insecure : Bool := false
  udp : Bool := false
  tcp : Bool := false
  deriving Repr, DecidableEq

/-- An IP address as produced by the Go function `net.ParseIP`: four IPv4
bytes or
eight 16-bit IPv6 groups. -/
inductive IP where
  | v4 (a b c d : Nat)
  | v6 (groups : List Nat)
  deriving Repr, DecidableEq

/-- Splits a character list at every occurrence of the separator character
(the list analogue of splitting a string on a one-character separator). -/
def splitOnChar (sep : Char) : List Char → List (List Char)
  | [] => [[]]
  | c :: cs =>
    match splitOnChar sep cs with
    | [] => if c = sep then [[], []] else [[c]]
    | g :: gs => if c = sep then [] :: g :: gs else (c :: g) :: gs

/-- The parts before and after the first occurrence of the separator
substring, when it occurs. -/
def splitFirstSub (sep : List Char) : List Char → Option (List Char × List Char)
  | [] => none
  | c :: cs =>
    if sep.isPrefixOf (c :: cs) then some ([], (c :: cs).drop sep.length)
    else
      match splitFirstSub sep cs with
      | none => none
      | some (pre, post) => some (c :: pre, post)

/-- One decimal IPv4 field: one to three digits, value at most 255. -/
def parseV4Field (s : List Char) : Option Nat :=
  if s.length = 0 ∨ 3 < s.length then none
  else if s.all Char.isDigit then
    let n := s.foldl (fun a c => a * 10 + (c.toNat - 48)) 0
    if n ≤ 255 then some n else none
  else none

/-- Dotted-quad IPv4 parsing: exactly four decimal fields separated by dots. -/
def parseIPv4 (s : List Char) : Option IP :=
  match (splitOnChar '.' s).mapM parseV4Field with
  | some [a, b, c, d] => some (IP.v4 a b c d)
  | _ => none

/-- One IPv6 hex group: one to four hexadecimal digits. -/
def isHexGroup (s : List Char) : Bool :=
  decide (0 < s.length) && decide (s.length ≤ 4) &&
    s.all (fun c => c.isDigit || ('a' ≤ c && c ≤ 'f') || ('A' ≤ c && c ≤ 'F'))

/-- Numeric value of a hex group. -/
def hexVal (s : List Char) : Nat :=
  s.foldl
    (fun a c =>
      a * 16 +
        (if c.isDigit then c.toNat - 48
         else if 'a' ≤ c && c ≤ 'f' then c.toNat - 87
         else c.toNat - 55)) 0

/-- IPv6 parsing, modelling the colon branch of the Go function `net.ParseIP`
with a simplified grammar: eight hex groups, or a single `::` abbreviation
standing for the missing zero groups (embedded dotted-quad tails are not
modelled; no claim depends on them). -/
def parseIPv6 (s : List Char) : Option IP :=
  if (splitFirstSub [':', ':', ':'] s).isSome then none
  else
    match splitFirstSub [':', ':'] s with
    | none =>
      let gs := splitOnChar ':' s
      if gs.length = 8 ∧ gs.all isHexGroup then some (IP.v6 (gs.map hexVal)) else none
    | some (pre, post) =>
      if (splitFirstSub [':', ':'] post).isSome then none
      else
        let gpre := if pre.isEmpty then [] else splitOnChar ':' pre
        let gpost := if post.isEmpty then [] else splitOnChar ':' post
        if (gpre ++ gpost).all isHexGroup ∧ gpre.length + gpost.length ≤ 7 then
          some (IP.v6 (gpre.map hexVal ++
            List.replicate (8 - gpre.length - gpost.length) 0 ++ gpost.map hexVal))
        else none

/-- The dispatch of the Go function `net.ParseIP`: scan for the first `.` or
`:`; a dot selects IPv4 parsing, a colon selects IPv6 parsing, neither yields
`nil` (`none`). -/
def parseIP (s : String) : Option IP :=
  match s.toList.find? (fun c => c = '.' ∨ c = ':') with
  | some '.' => parseIPv4 s.toList
  | some ':' => parseIPv6 s.toList
  | _ => none

/-- A host/port pair as produced by `gdns.ParseEndpoint`. -/
structure Endpoint where
  host : String
  port : Nat
  deriving Repr, DecidableEq

/-- Modelled from the spec: `gdns.ParseEndpoint` (the `gdns` package is not
under `src/`) parses a DNS-server entry of the form `host` or `host:port`,
using the supplied default port when none is given, and rejects entries with
an empty host, a non-numeric or out-of-range port, or extra colons. -/
def ParseEndpoint (s : String) (defaultPort : Nat) : Except String Endpoint :=
  match splitOnChar ':' s.toList with
  | [h] =>
    if h.isEmpty then .error ("invalid endpoint: " ++ s)
    else .ok ⟨String.mk h, defaultPort⟩
  | [h, p] =>
    if h.isEmpty then .error ("invalid endpoint: " ++ s)
    else if p.isEmpty ∨ ¬p.all Char.isDigit then .error ("invalid port in: " ++ s)
    else
      let n := p.foldl (fun a c => a * 10 + (c.toNat - 48)) 0
      if n ≤ 65535 then .ok ⟨String.mk h, n⟩ else .error ("invalid port in: " ++ s)
  | _ => .error ("invalid endpoint: " ++ s)

/-- `gdns.GDNSOptions` as populated by `main.go` lines 122-142. -/
structure GDNSOptions where
  PROXY : String
  EDNS : String
  Pad : Bool
  Secure : Bool
  EndpointIPs : List IP
  DNSServers : List Endpoint
  deriving Repr, DecidableEq

/-- The option construction of `main.go` lines 122-142: `Pad` and `Secure` are
the negations of the `no-pad` and `insecure` flags; each `endpoint-ips` entry
that parses is appended and each that fails to parse is logged and skipped;
likewise for `dns-servers` entries through `ParseEndpoint`. -/
def buildOpts (f : Flags) : GDNSOptions where
  PROXY := f.proxy
  EDNS := f.edns
  Pad := !f.noPad
  Secure := !f.insecure
  EndpointIPs := f.endpointIPs.filterMap parseIP
  DNSServers := f.dnsServers.filterMap (fun s => (ParseEndpoint s 53).toOption)

/-- The listener protocol list built in `main.go` lines 111-116: `"tcp"` is
appended when the tcp flag is set, then `"udp"` when the udp flag is set. -/
def listenProtocolsOf (f : Flags) : List String :=
  (if f.tcp then ["tcp"] else []) ++ (if f.udp then ["udp"] else [])

/-- A parsed DoH endpoint URL. -/
structure URL where
  scheme : String
  host : String
  path : String
  deriving Repr, DecidableEq

/-- Rejoins path segments with slashes. -/
def joinSlash : List (List Char) → List Char
  | [] => []
  | [g] => g
  | g :: gs => g ++ '/' :: joinSlash gs

/-- Modelled from the spec: parsing of the configured endpoint URL into a
usable request template — `scheme://host/path` with a nonempty scheme and a
nonempty host; anything else is unusable. -/
def parseURL (s : String) : Option URL :=
  match splitFirstSub [':', '/', '/'] s.toList with
  | none => none
  | some (scheme, rest) =>
    if scheme.isEmpty then none
    else
      match splitOnChar '/' rest with
      | [] => none
      | h :: tail =>
        if h.isEmpty then none
        else some ⟨String.mk scheme, String.mk h, String.mk (joinSlash tail)⟩

/-- The provider returned by `gdns.NewGDNSProvider`: the parsed endpoint URL
template together with the options it owns. -/
structure Provider where
  url : URL
  opts : GDNSOptions
  deriving Repr, DecidableEq

/-- Modelled from the spec: `gdns.NewGDNSProvider` (not under `src/`) fails
exactly when the configured endpoint URL cannot be parsed into a usable
request template; on success the provider owns the options unchanged. -/
def NewGDNSProvider (endpoint : String) (opts : GDNSOptions) : Except String Provider :=
  match parseURL endpoint with
  | none => .error ("invalid endpoint URL: " ++ endpoint)
  | some u => .ok ⟨u, opts⟩

/-- The observable outcome of `main` (lines 107-173): `helpExit` is the
`ShowAppHelp` + `os.Exit(0)` path taken when no listen protocol is enabled
(before any provider is constructed); `fatalExit` is `glog.Exitln` on provider
construction failure (before any listener is started); `served` records the
protocols whose listeners are started, the options the provider consumes, and
the listen address. -/
inductive MainOutcome where
  | helpExit
  | fatalExit (msg : String)
  | served (protocols : List String) (opts : GDNSOptions) (addr : String)
  deriving Repr, DecidableEq

/-- Whether the outcome started any listener. -/
def MainOutcome.isServed : MainOutcome → Bool
  | .served _ _ _ => true
  | _ => false

/-- Whether the outcome is the fatal `glog.Exitln` exit. -/
def MainOutcome.isFatal : MainOutcome → Bool
  | .fatalExit _ => true
  | _ => false

/-- The sequential control flow of `main` after flag parsing: run the app
action (build the protocol list, exit with help if it is empty, build the
options), then construct the provider (fatal exit on error), then start one
listener per enabled protocol. -/
def mainModel (f : Flags) : MainOutcome :=
  let protos := listenProtocolsOf f
  if protos.isEmpty then .helpExit
  else
    let opts := buildOpts f
    match NewGDNSProvider f.endpoint opts with
    | .error e => .fatalExit e
    | .ok _ => .served protos opts f.listen

/-- The DNS SERVFAIL response code. -/
def SERVFAIL : Nat := 2

/-- A DNS question entry: name, type, class. -/
structure DNSQuestion where
  name : String
  qtype : Nat
  qclass : Nat
  deriving Repr, DecidableEq

/-- A DNS resource record. -/
structure RR where
  name : String
  rtype : Nat
  rclass : Nat
  ttl : Nat
  rdata : String
  deriving Repr, DecidableEq

/-- A DNS message as seen by the Handler: transaction ID, question section,
response code and answer records. -/
structure DNSMsg where
  id : Nat
  question : List DNSQuestion
  rcode : Nat
  answers : List RR
  deriving Repr, DecidableEq

/-- The per-query errors the Provider can surface to the Handler. -/
inductive ProviderError where
  | endpointUnresolvable
  | transportFailure
  | malformedUpstreamResponse
  deriving Repr, DecidableEq

/-- What one Provider resolution attempt delivered to the Handler: a decoded
upstream answer, a Provider-surfaced error, or expiry of the bounded deadline. -/
inductive ResolveOutcome where
  | answer (rcode : Nat) (answers : List RR)
  | failure (e : ProviderError)
  | deadlineExpired
  deriving Repr, DecidableEq

/-- Modelled from the spec: the `gdns` Handler (not under `src/`) writes, for
every inbound query, a response carrying the transaction ID and question of
the query; on a decoded upstream answer it carries the upstream response code
and records, and on any Provider-surfaced error or deadline expiry it is a
synthesized SERVFAIL with no answer records. -/
def handle (q : DNSMsg) (out : ResolveOutcome) : DNSMsg :=
  match out with
  | .answer rc ans => { id := q.id, question := q.question, rcode := rc, answers := ans }
  | .failure _ => { id := q.id, question := q.question, rcode := SERVFAIL, answers := [] }
  | .deadlineExpired => { id := q.id, question := q.question, rcode := SERVFAIL, answers := [] }

/-- What releases the blocking receive on the signal channel of one `serve`
invocation (`main.go` lines 28-49).  Each invocation makes its own channel
(line 31); the OS delivers SIGINT/SIGTERM to it via `signal.Notify`, and the
`ListenAndServe` goroutine of the same invocation sends SIGTERM on the same
channel when the listener fails to start (line 38) — so the releasing input is
strictly per-invocation. -/
inductive ServeInput where
  | osSignal
  | listenError (msg : String)
  deriving Repr, DecidableEq

/-- The observable actions of one `serve` invocation. -/
inductive ServeEvent where
  | listenStart (proto addr : String)
  | errorLog (msg : String)
  | shutdownCall (proto : String)
  deriving Repr, DecidableEq

/-- The event trace of one `serve` invocation (`main.go` lines 28-49): it
starts the listener, blocks until its signal channel is released (by the OS
signal, or by the error branch of its own `ListenAndServe` goroutine, which
logs the error and sends SIGTERM), then calls `server.Shutdown` and returns.
The trace of an invocation depends only on its own input: the failure of one
listener cannot release the channel of another. -/
def serveTrace (proto addr : String) (input : ServeInput) : List ServeEvent :=
  ServeEvent.listenStart proto addr ::
    (match input with
     | .osSignal => []
     | .listenError m => [ServeEvent.errorLog m]) ++ [ServeEvent.shutdownCall proto]

/-- One listener goroutine spawned by `main` (lines 161-166): its protocol and
the input that eventually releases its `serve` loop. -/
structure ListenerRun where
  proto : String
  input : ServeInput
  deriving Repr, DecidableEq

/-- The completion tokens sent on the `servers` channel: each listener
goroutine sends exactly one `true` after its `serve` call returns (line 164). -/
def completionTokens (runs : List ListenerRun) : List Bool :=
  runs.map (fun _ => true)

/-- The wait loop of `main` (lines 169-171): one blocking receive per started
protocol, so `main` returns exactly when at least one completion token per
started protocol has been sent. -/
def mainWaitDone (protocols : List String) (tokens : List Bool) : Bool :=
  decide (protocols.length ≤ tokens.length)

/-- Whether provider construction succeeded. -/
def constructionOk : Except String Provider → Bool
  | .ok _ => true
  | .error _ => false

/-- Inversion of the serving outcome: reaching the serving phase forces the
protocol list, the options and the listen address to be the ones built from
the flags. -/
theorem mainModel_served_inv (f : Flags) (protos : List String) (opts : GDNSOptions)
    (addr : String) (h : mainModel f = MainOutcome.served protos opts addr) :
    protos = listenProtocolsOf f ∧ opts = buildOpts f ∧ addr = f.listen := by
  simp only [mainModel] at h
  split at h
  · exact MainOutcome.noConfusion h
  · split at h
    · exact MainOutcome.noConfusion h
    · injection h with h1 h2 h3
      exact ⟨h1.symm, h2.symm, h3.symm⟩

/-- C1 counterexample: with the single static address `"not-an-ip"`, which
fails to parse, and the tcp flag set, the process does not terminate before
the listeners start: it reaches the serving phase, merely dropping the bad
entry — refuting the claim that an unparsable static address is fatal. -/
theorem c1_counterexample :
    parseIP "not-an-ip" = none ∧
    (mainModel { endpointIPs := ["not-an-ip"], tcp := true }).isServed = true := by
  exact ⟨rfl, rfl⟩

/-- C1 (amended): an unparsable static address entry (endpoint-ips entry that
is not a valid IP, or dns-servers entry that ParseEndpoint rejects) is NOT
fatal: the entry is logged and skipped, only the parsing entries are kept, and
startup proceeds; the fatal exit happens exactly when some protocol is enabled
and provider construction fails. -/
theorem c1_static_address_failures_not_fatal (f : Flags) :
    (buildOpts f).EndpointIPs = f.endpointIPs.filterMap parseIP ∧
    (buildOpts f).DNSServers =
      f.dnsServers.filterMap (fun s => (ParseEndpoint s 53).toOption) ∧
    ((mainModel f).isFatal = true ↔
      (listenProtocolsOf f).isEmpty = false ∧
        constructionOk (NewGDNSProvider f.endpoint (buildOpts f)) = false) := by
  refine ⟨rfl, rfl, ?_⟩
  unfold mainModel
  cases he : (listenProtocolsOf f).isEmpty <;>
    cases hc : NewGDNSProvider f.endpoint (buildOpts f) <;>
      simp [he, hc, MainOutcome.isFatal, constructionOk]

/-- C2: once at least one protocol is enabled, provider-construction failure
is the only remaining startup failure mode: on a construction error main takes
the fatal exit and no listener is started, and on success the listeners are
started with everything else left to per-query handling. -/
theorem c2_provider_error_only_startup_failure (f : Flags)
    (h : (listenProtocolsOf f).isEmpty = false) :
    (constructionOk (NewGDNSProvider f.endpoint (buildOpts f)) = false →
      (mainModel f).isFatal = true ∧ (mainModel f).isServed = false) ∧
    (constructionOk (NewGDNSProvider f.endpoint (buildOpts f)) = true →
      mainModel f = .served (listenProtocolsOf f) (buildOpts f) f.listen) := by
  unfold mainModel
  cases hc : NewGDNSProvider f.endpoint (buildOpts f) <;>
    simp [h, hc, constructionOk, MainOutcome.isFatal, MainOutcome.isServed]

/-- C2 witness: at the concrete unparsable endpoint URL `"nourl"` with tcp
enabled, main exits fatally and serves nothing. -/
theorem c2_provider_error_only_startup_failure_witness :
    (mainModel { tcp := true, endpoint := "nourl" }).isFatal = true ∧
    (mainModel { tcp := true, endpoint := "nourl" }).isServed = false := by
  exact (c2_provider_error_only_startup_failure { tcp := true, endpoint := "nourl" }
    (by decide)).1 (by decide)

/-- C3: for every inbound query and every resolution outcome — success,
Provider-surfaced error or deadline expiry — the response the Handler writes
carries the transaction ID and the question section of the query. -/
theorem c3_response_echoes_id_and_question (q : DNSMsg) (out : ResolveOutcome) :
    (handle q out).id = q.id ∧ (handle q out).question = q.question := by
  cases out <;> exact ⟨rfl, rfl⟩

/-- C4: on every Provider-surfaced error and on deadline expiry the Handler
writes a synthesized SERVFAIL response that echoes the transaction ID and
question of the query, so no query goes unanswered and no raw error escapes. -/
theorem c4_servfail_on_provider_error (q : DNSMsg) (e : ProviderError) :
    handle q (ResolveOutcome.failure e) =
      { id := q.id, question := q.question, rcode := SERVFAIL, answers := [] } ∧
    handle q ResolveOutcome.deadlineExpired =
      { id := q.id, question := q.question, rcode := SERVFAIL, answers := [] } :=
  ⟨rfl, rfl⟩

/-- C5: when main reached the serving phase, delivery of SIGINT/SIGTERM makes
every started listener call `server.Shutdown` as the last action of its serve
loop before returning, and the wait loop of main returns exactly when one
completion token per started protocol has been sent — main exits only after
all started listeners have stopped. -/
theorem c5_graceful_shutdown (f : Flags) (protos : List String) (opts : GDNSOptions)
    (addr : String) (_h : mainModel f = MainOutcome.served protos opts addr) :
    (∀ p ∈ protos, (serveTrace p addr ServeInput.osSignal).getLast? =
      some (ServeEvent.shutdownCall p)) ∧
    mainWaitDone protos
      (completionTokens (protos.map (fun p => ⟨p, ServeInput.osSignal⟩))) = true ∧
    (∀ tokens : List Bool, mainWaitDone protos tokens = true →
      protos.length ≤ tokens.length) := by
  refine ⟨fun p _ => rfl, ?_, ?_⟩
  · simp [mainWaitDone, completionTokens]
  · intro tokens ht
    simpa [mainWaitDone] using ht

/-- C5 witness: with both protocols enabled main serves tcp and udp; the tcp
serve loop ends in a Shutdown call on the OS signal, and the wait loop is
satisfied by the two completion tokens. -/
theorem c5_graceful_shutdown_witness :
    (serveTrace "tcp" ":5300" ServeInput.osSignal).getLast? =
      some (ServeEvent.shutdownCall "tcp") ∧
    mainWaitDone ["tcp", "udp"]
      (completionTokens
        (["tcp", "udp"].map (fun p => ⟨p, ServeInput.osSignal⟩))) = true := by
  have h := c5_graceful_shutdown { tcp := true, udp := true } ["tcp", "udp"]
    (buildOpts { tcp := true, udp := true }) ":5300" (by decide)
  exact ⟨h.1 "tcp" (by decide), h.2.1⟩

/-- C6: the provider options negate the CLI toggles — padding is on exactly
when the no-pad flag is absent, certificate validation is on exactly when the
insecure flag is absent, and with default flags both are on. -/
theorem c6_padding_and_tls_toggles (f : Flags) :
    ((buildOpts f).Pad = true ↔ f.noPad = false) ∧
    ((buildOpts f).Secure = true ↔ f.insecure = false) ∧
    (buildOpts ({} : Flags)).Pad = true ∧ (buildOpts ({} : Flags)).Secure = true := by
  refine ⟨?_, ?_, rfl, rfl⟩
  · cases hn : f.noPad <;> simp [buildOpts, hn]
  · cases hi : f.insecure <;> simp [buildOpts, hi]

/-- C7: whenever main reaches the serving phase, the protocols served are
exactly those built from the flags, and each of tcp/udp is served exactly when
its CLI flag is set. -/
theorem c7_served_transports (f : Flags) (protos : List String) (opts : GDNSOptions)
    (addr : String) (h : mainModel f = MainOutcome.served protos opts addr) :
    protos = listenProtocolsOf f ∧
    ("tcp" ∈ protos ↔ f.tcp = true) ∧ ("udp" ∈ protos ↔ f.udp = true) := by
  have hp : protos = listenProtocolsOf f := (mainModel_served_inv f protos opts addr h).1
  subst hp
  refine ⟨rfl, ?_, ?_⟩ <;> unfold listenProtocolsOf <;>
    cases ht : f.tcp <;> cases hu : f.udp <;> simp

/-- C7 witness: with only the tcp flag set, tcp is served and udp is not. -/
theorem c7_served_transports_witness :
    ("tcp" ∈ listenProtocolsOf { tcp := true } ↔
      ({ tcp := true } : Flags).tcp = true) ∧
    ("udp" ∈ listenProtocolsOf { tcp := true } ↔
      ({ tcp := true } : Flags).udp = true) := by
  have h := c7_served_transports { tcp := true } (listenProtocolsOf { tcp := true })
    (buildOpts { tcp := true }) ":5300" (by decide)
  exact ⟨h.2.1, h.2.2⟩

/-- C8: the options value the serving phase consumes is exactly the one built
at configuration time, and the constructed provider holds that same options
value unchanged — nothing rewrites the configuration after construction. -/
theorem c8_options_immutable (f : Flags) (protos : List String) (opts : GDNSOptions)
    (addr : String) (h : mainModel f = MainOutcome.served protos opts addr) :
    opts = buildOpts f ∧
    ∀ p : Provider, NewGDNSProvider f.endpoint (buildOpts f) = Except.ok p →
      p.opts = buildOpts f := by
  constructor
  · exact (mainModel_served_inv f protos opts addr h).2.1
  · intro p hp
    unfold NewGDNSProvider at hp
    cases hu : parseURL f.endpoint <;> rw [hu] at hp <;> simp at hp
    rw [← hp]

/-- C8 witness: at the default endpoint the constructed provider carries the
options built from the flags, unchanged. -/
theorem c8_options_immutable_witness :
    (Provider.mk ⟨"https", "dns.google.com", "resolve"⟩
        (buildOpts { tcp := true })).opts = buildOpts { tcp := true } := by
  have h := c8_options_immutable { tcp := true } (listenProtocolsOf { tcp := true })
    (buildOpts { tcp := true }) ":5300" (by decide)
  exact h.2 _ (by rfl)

/-- C9: with neither the tcp nor the udp flag given, main takes the help path:
help is shown and the process exits with status 0 before any provider is
constructed and before any listener is started. -/
theorem c9_help_exit (f : Flags) (ht : f.tcp = false) (hu : f.udp = false) :
    mainModel f = MainOutcome.helpExit := by
  unfold mainModel
  simp [listenProtocolsOf, ht, hu]

/-- C9 witness: default flags enable no protocol and give the help exit. -/
theorem c9_help_exit_witness : mainModel ({} : Flags) = MainOutcome.helpExit :=
  c9_help_exit ({} : Flags) rfl rfl

/-- C10: a listener whose ListenAndServe fails receives SIGTERM on its own
per-invocation channel only: its serve loop logs the error and still returns
through the normal Shutdown path; any listener released by the OS signal shows
the unperturbed normal trace; and the wait loop of main is satisfied exactly
by one completion token per goroutine, so the process exits only after all of
them finish. -/
theorem c10_listener_failure_isolated (addr m : String) (runs : List ListenerRun)
    (r : ListenerRun) (_hr : r ∈ runs) (hfail : r.input = ServeInput.listenError m) :
    serveTrace r.proto addr r.input =
      [ServeEvent.listenStart r.proto addr, ServeEvent.errorLog m,
        ServeEvent.shutdownCall r.proto] ∧
    (∀ s ∈ runs, s.input = ServeInput.osSignal →
      serveTrace s.proto addr s.input =
        [ServeEvent.listenStart s.proto addr, ServeEvent.shutdownCall s.proto]) ∧
    mainWaitDone (runs.map ListenerRun.proto) (completionTokens runs) = true := by
  refine ⟨by simp [serveTrace, hfail], fun s _ hs => by simp [serveTrace, hs], ?_⟩
  simp [mainWaitDone, completionTokens]

/-- C10 witness: the tcp listener fails to bind while the udp listener runs
until the OS signal; the failing loop still ends in Shutdown and both
completion tokens satisfy the wait loop. -/
theorem c10_listener_failure_isolated_witness :
    serveTrace "tcp" ":5300" (ServeInput.listenError "bind failed") =
      [ServeEvent.listenStart "tcp" ":5300", ServeEvent.errorLog "bind failed",
        ServeEvent.shutdownCall "tcp"] ∧
    mainWaitDone ["tcp", "udp"]
      (completionTokens [⟨"tcp", ServeInput.listenError "bind failed"⟩,
        ⟨"udp", ServeInput.osSignal⟩]) = true := by
  have h := c10_listener_failure_isolated ":5300" "bind failed"
    [⟨"tcp", ServeInput.listenError "bind failed"⟩, ⟨"udp", ServeInput.osSignal⟩]
    ⟨"tcp", ServeInput.listenError "bind failed"⟩ (by decide) rfl
  exact ⟨h.1, h.2.2⟩

end GHD
